import Mathlib

/-!
Shallow embedding of the GLTF/GLB model-loader module (`modelLoader.js`)
of the `wrapup` repository, together with theorems settling the claims
about its specification.

Modelling conventions:
* Scalars carried by the rendering engine (positions, scales, angles,
  fov/near/far, viewport sizes) are embedded as integers; every claim
  is about values being copied, defaulted or left untouched, never
  about floating-point arithmetic, so the carrier of the scalars is
  irrelevant to the claims and an exactly-computable one is used.
* `THREE.Object3D` scene-graph objects are embedded as rose trees
  (`Node`) whose payload records the engine-maintained fields the
  loader reads or writes (`name`, `isCamera`, `isPerspectiveCamera`,
  `fov`/`near`/`far`, mesh/shadow flags, the local TRS of the object
  and its engine-computed world transform).  World-transform
  computation itself is engine code and is out of scope; each node
  carries the world position/quaternion the engine would report.
* JavaScript reference identity (`includes`) is embedded as structural
  equality on nodes.
* The viewport dimensions read for the aspect ratio are a parameter of
  the environment (`Env`).
* Line 163 calls `worldQuat.toEuler(new THREE.Euler())`, but
  `THREE.Quaternion` has no `toEuler` method: whenever a transform
  source node is resolved, the success callback throws a `TypeError`
  after the scene attachment and the world-position copy; the decoder's
  promise chain catches it and invokes the error callback, so the
  promise rejects.  The embedding models this thrown exception
  explicitly (`LoadErr.typeError`).
-/

deriving instance DecidableEq for Except

namespace ModelLoader

/-- 3-component vector, as used for positions and scales. -/
structure Vec3 where
  x : Int
  y : Int
  z : Int
deriving DecidableEq, Repr

/-- Euler angles (the bound camera's rotation representation). -/
structure Euler where
  ex : Int
  ey : Int
  ez : Int
deriving DecidableEq, Repr

/-- Quaternion (world orientation as reported by the engine). -/
structure Quat where
  qx : Int
  qy : Int
  qz : Int
  qw : Int
deriving DecidableEq, Repr

/-- Payload of a scene-graph object: the fields of `THREE.Object3D`
(and its camera/mesh subclasses) that `modelLoader.js` reads or writes. -/
structure NodeData where
  name : String
  isCamera : Bool
  isPerspectiveCamera : Bool
  fov : Int
  near : Int
  far : Int
  isMesh : Bool
  castShadow : Bool
  receiveShadow : Bool
  position : Vec3
  scale : Vec3
  rotation : Euler
  worldPos : Vec3
  worldQuat : Quat
deriving DecidableEq, Repr

/-- A scene-graph object: payload plus ordered children. -/
inductive Node where
  | mk (data : NodeData) (children : List Node)
deriving Repr

def Node.data : Node → NodeData
  | .mk d _ => d

def Node.children : Node → List Node
  | .mk _ cs => cs

-- Structural equality on nodes, standing in for JavaScript reference
-- equality in `Array.prototype.includes`.
mutual
def nodeBEq : Node → Node → Bool
  | .mk d1 c1, .mk d2 c2 => d1 == d2 && nodeListBEq c1 c2
def nodeListBEq : List Node → List Node → Bool
  | [], [] => true
  | a :: as, b :: bs => nodeBEq a b && nodeListBEq as bs
  | _, _ => false
end

mutual
theorem nodeBEq_iff : ∀ a b : Node, nodeBEq a b = true ↔ a = b
  | .mk d1 c1, .mk d2 c2 => by
    simp only [nodeBEq, Bool.and_eq_true, beq_iff_eq, Node.mk.injEq]
    exact and_congr Iff.rfl (nodeListBEq_iff c1 c2)
theorem nodeListBEq_iff : ∀ as bs : List Node, nodeListBEq as bs = true ↔ as = bs
  | [], [] => by simp [nodeListBEq]
  | [], _ :: _ => by simp [nodeListBEq]
  | _ :: _, [] => by simp [nodeListBEq]
  | a :: as, b :: bs => by
    simp only [nodeListBEq, Bool.and_eq_true, List.cons.injEq]
    exact and_congr (nodeBEq_iff a b) (nodeListBEq_iff as bs)
end

instance : DecidableEq Node := fun a b => decidable_of_iff _ (nodeBEq_iff a b)

-- All objects of a hierarchy in depth-first preorder — the order in
-- which `Object3D.traverse` visits them.
mutual
def allNodes : Node → List Node
  | .mk d cs => Node.mk d cs :: allNodesL cs
def allNodesL : List Node → List Node
  | [] => []
  | c :: cs => allNodes c ++ allNodesL cs
end

/-- Induction principle for `Node` with the hypotheses on all children. -/
theorem Node.ind {P : Node → Prop}
    (h : ∀ d cs, (∀ c ∈ cs, P c) → P (Node.mk d cs)) : ∀ n, P n
  | .mk d cs => h d cs (fun c hc => Node.ind h c)
termination_by n => sizeOf n
decreasing_by
  have := List.sizeOf_lt_of_mem hc
  simp only [Node.mk.sizeOf_spec]
  omega

theorem mem_allNodesL {n : Node} {l : List Node} :
    n ∈ allNodesL l ↔ ∃ c ∈ l, n ∈ allNodes c := by
  induction l with
  | nil => simp [allNodesL]
  | cons c cs ih => simp [allNodesL, ih]

theorem self_mem_allNodes (n : Node) : n ∈ allNodes n := by
  cases n with
  | mk d cs => simp [allNodes]

/-! ### String matching used by the named-camera lookup -/

-- `startsChars p s` holds when `p` is an initial segment of `s`.
def startsChars : List Char → List Char → Bool
  | [], _ => true
  | _ :: _, [] => false
  | p :: ps, s :: ss => p == s && startsChars ps ss

-- `hasSubChars p s` holds when `p` occurs contiguously inside `s` —
-- the semantics of JavaScript `String.prototype.includes`.
def hasSubChars (pat : List Char) : List Char → Bool
  | [] => startsChars pat []
  | s :: ss => startsChars pat (s :: ss) || hasSubChars pat ss

-- ASCII lowering of JavaScript `toLowerCase` (asset names of
-- interest are ASCII).
def lowerChar (c : Char) : Char :=
  if 65 ≤ c.toNat ∧ c.toNat ≤ 90 then Char.ofNat (c.toNat + 32) else c

-- JavaScript `name.toLowerCase().includes(pat)`.
def lowerIncludes (name pat : String) : Bool :=
  hasSubChars pat.data (name.data.map lowerChar)

-- The name constants of `modelLoader.js` lines 125-131.
def nameCamera : String := "Camera"
def nameMainCameraSp : String := "Main Camera"
def nameCameraLc : String := "camera"
def nameMainCamera : String := "MainCamera"

-- `Object3D.getObjectByName`: the receiver itself if its name matches
-- exactly, otherwise the first match in a depth-first search of the
-- children (the engine's `getObjectByProperty` recursion).
mutual
def getObjectByName (n : Node) (s : String) : Option Node :=
  match n with
  | .mk d cs => if d.name = s then some (Node.mk d cs) else getObjectByNameL cs s
def getObjectByNameL (l : List Node) (s : String) : Option Node :=
  match l with
  | [] => none
  | c :: cs => (getObjectByName c s).orElse (fun _ => getObjectByNameL cs s)
end

/-- The named-camera lookup of `modelLoader.js` lines 125-131: four
exact-name searches tried in order, then the first direct child of the
root whose (nonempty) name contains the substring `"camera"` after
lower-casing. -/
def namedLookup (model : Node) : Option Node :=
  ((((getObjectByName model nameCamera).orElse (fun _ =>
      getObjectByName model nameMainCameraSp)).orElse (fun _ =>
      getObjectByName model nameCameraLc)).orElse (fun _ =>
      getObjectByName model nameMainCamera)).orElse (fun _ =>
      model.children.find? (fun c =>
        !(c.data.name == "") && lowerIncludes c.data.name nameCameraLc))

/-- Lines 133-135: append the named node to the collected camera nodes
unless it was already collected (`includes` = structural equality). -/
def appendNamed (nodes : List Node) (model : Node) : List Node :=
  match namedLookup model with
  | some n => if nodes.any (fun t => nodeBEq t n) then nodes else nodes ++ [n]
  | none => nodes

/-! ### The traversal of lines 106-122 collecting camera candidates

The accumulator holds the `cameraObjects` (each paired with its parent
object, which the source reads back via `.parent`) and the
`cameraNodes`.  The parent of the model root at traversal time is the
scene the model was just attached to. -/

-- The `node.children.forEach` body of lines 114-121.
def scanKids (parent : Node) (cs : List Node)
    (acc : List (Node × Node) × List Node) : List (Node × Node) × List Node :=
  match cs with
  | [] => acc
  | c :: rest =>
    let acc' :=
      if c.data.isCamera && !(acc.1.any (fun op => nodeBEq op.1 c)) then
        (acc.1 ++ [(c, parent)], acc.2 ++ [parent])
      else acc
    scanKids parent rest acc'

mutual
-- The traversal callback applied at `n` (whose parent is `parent`),
-- followed by the recursive descent of `Object3D.traverse`.
def visitNode (parent : Node) (n : Node)
    (acc : List (Node × Node) × List Node) : List (Node × Node) × List Node :=
  match n with
  | .mk d cs =>
    let acc1 := if d.isCamera then (acc.1 ++ [(Node.mk d cs, parent)], acc.2 ++ [Node.mk d cs]) else acc
    let acc2 := scanKids (Node.mk d cs) cs acc1
    visitKids (Node.mk d cs) cs acc2
def visitKids (parent : Node) (cs : List Node)
    (acc : List (Node × Node) × List Node) : List (Node × Node) × List Node :=
  match cs with
  | [] => acc
  | c :: rest => visitKids parent rest (visitNode parent c acc)
end

/-- `model.traverse(...)` of lines 106-122, started at the model root
(whose parent is the scene it was attached to on line 93). -/
def collectCameras (sceneAfter model : Node) :
    List (Node × Node) × List Node :=
  visitNode sceneAfter model ([], [])

/-- The selection policy of lines 137-152: the first collected camera
object wins (its parent is the transform source); otherwise the first
collected camera node is the transform source and supplies intrinsics
only if it is itself a camera. Returns `(cameraToUse, transformNode)`. -/
def resolveCamera (sceneAfter model : Node) : Option Node × Option Node :=
  let collected := collectCameras sceneAfter model
  let nodes := appendNamed collected.2 model
  match collected.1 with
  | (o, p) :: _ => (some o, some p)
  | [] =>
    match nodes with
    | t :: _ => ((if t.data.isCamera then some t else none), some t)
    | [] => (none, none)

/-! ### The bound camera, controls, environment and loader state -/

/-- Projection data recomputed by `updateProjectionMatrix` from the
camera's current intrinsics. -/
structure Projection where
  pfov : Int
  paspect : Int
  pnear : Int
  pfar : Int
deriving DecidableEq, Repr

/-- The application's bound perspective camera: the fields
`modelLoader.js` reads or writes on `cameraRef`. -/
structure Camera where
  position : Vec3
  rotation : Euler
  fov : Int
  aspect : Int
  near : Int
  far : Int
  projection : Projection
deriving DecidableEq, Repr

/-- `updateProjectionMatrix`: recompute the projection from the current
intrinsics. -/
def updateProjection (c : Camera) : Camera :=
  { c with projection := ⟨c.fov, c.aspect, c.near, c.far⟩ }

/-- The orbit-controls companion; the loader only ever calls
`controls.update()`, counted here. -/
structure Controls where
  updateCount : Nat
deriving DecidableEq, Repr

/-- External environment read by the loader: the current viewport
dimensions (`window.innerWidth/innerHeight`). -/
structure Env where
  innerWidth : Int
  innerHeight : Int
deriving DecidableEq, Repr

/-- The module-level mutable references of `modelLoader.js` lines 12-14. -/
structure LoaderState where
  sceneRef : Option Node
  cameraRef : Option Camera
  controlsRef : Option Controls
deriving Repr

/-- `setScene` (lines 17-19). -/
def setScene (scene : Node) (st : LoaderState) : LoaderState :=
  { st with sceneRef := some scene }

/-- `setCamera` (lines 22-25). -/
def setCamera (camera : Camera) (controls : Option Controls)
    (st : LoaderState) : LoaderState :=
  { st with cameraRef := some camera, controlsRef := controls }

/-! ### Load requests and results -/

/-- `options.position` / `options.rotation` accept an array or an
engine vector/Euler object. -/
inductive VecOption where
  | arr (x y z : Int)
  | vec (v : Vec3)
deriving DecidableEq, Repr

inductive RotOption where
  | arr (x y z : Int)
  | eul (e : Euler)
deriving DecidableEq, Repr

/-- `options.scale` additionally accepts a uniform scalar. -/
inductive ScaleOption where
  | num (s : Int)
  | arr (x y z : Int)
  | vec (v : Vec3)
deriving DecidableEq, Repr

/-- The recognized option fields of `loadModel`; `none` is an omitted
(JavaScript `undefined`) field. -/
structure Options where
  position : Option VecOption := none
  scale : Option ScaleOption := none
  rotation : Option RotOption := none
  shadows : Option Bool := none
  useCamera : Option Bool := none
deriving DecidableEq, Repr

/-- The decoded asset handed to the success callback: scene hierarchy,
declared cameras, animation clips (named abstractly). -/
structure Gltf where
  scene : Node
  cameras : List Node
  animations : List String
deriving DecidableEq, Repr

/-- The value `loadModel` resolves with. -/
structure LoadResult where
  model : Node
  cameras : List Node
  animations : List String
deriving DecidableEq, Repr

/-- The rejection kinds: the underlying decode failure forwarded on
line 217, the `Scene not initialized` error of line 89, and the
`TypeError` thrown at line 163 — `THREE.Quaternion` has no `toEuler`
method, so `worldQuat.toEuler(new THREE.Euler())` throws whenever a
transform source node was resolved; the exception escapes the success
callback into the decoder's promise chain, whose catch handler delivers
it to the same error callback, rejecting the promise. -/
inductive LoadErr where
  | decodeErr (cause : String)
  | notInitialized
  | typeError
deriving DecidableEq, Repr

/-! ### Applying the placement options (lines 48-75) -/

def setRootPos (n : Node) (p : Vec3) : Node :=
  Node.mk { n.data with position := p } n.children

def setRootScale (n : Node) (v : Vec3) : Node :=
  Node.mk { n.data with scale := v } n.children

def setRootRot (n : Node) (e : Euler) : Node :=
  Node.mk { n.data with rotation := e } n.children

def applyPosition (opts : Options) (n : Node) : Node :=
  match opts.position with
  | none => n
  | some (.arr x y z) => setRootPos n ⟨x, y, z⟩
  | some (.vec v) => setRootPos n v

def applyScale (opts : Options) (n : Node) : Node :=
  match opts.scale with
  | none => n
  | some (.num s) => setRootScale n ⟨s, s, s⟩
  | some (.arr x y z) => setRootScale n ⟨x, y, z⟩
  | some (.vec v) => setRootScale n v

def applyRotation (opts : Options) (n : Node) : Node :=
  match opts.rotation with
  | none => n
  | some (.arr x y z) => setRootRot n ⟨x, y, z⟩
  | some (.eul e) => setRootRot n e

/-! ### Shadow marking (lines 77-86) -/

mutual
def markShadows : Node → Node
  | .mk d cs =>
    Node.mk
      (if d.isMesh then { d with castShadow := true, receiveShadow := true } else d)
      (markShadowsL cs)
def markShadowsL : List Node → List Node
  | [] => []
  | c :: cs => markShadows c :: markShadowsL cs
end

/-- The model after option application and shadow marking, exactly as
mutated in place by lines 48-86 before attachment. -/
def transformedModel (opts : Options) (g : Gltf) : Node :=
  let m := applyRotation opts (applyScale opts (applyPosition opts g.scene))
  if opts.shadows ≠ some false then markShadows m else m

/-- `scene.add(model)` (line 93): append the model to the scene's
children. -/
def addChild (scene model : Node) : Node :=
  Node.mk scene.data (scene.children ++ [model])

/-! ### Camera derivation (lines 97-197) -/

/-- Outcome of the camera-handling block: the (possibly partially
mutated) bound camera and controls, plus the exception that escaped the
success callback, if any. -/
structure DeriveOutcome where
  cam : Camera
  ctl : Option Controls
  thrown : Option LoadErr
deriving DecidableEq, Repr

-- Lines 154-196, parameterized by the selection result
-- `(cameraToUse, transformNode)`.  With a resolved transform source,
-- lines 155-162 run — `getWorldPosition`/`getWorldQuaternion`, and the
-- world position is copied onto the bound camera — and then line 163
-- evaluates `worldQuat.toEuler(new THREE.Euler())`: `THREE.Quaternion`
-- has no `toEuler` method, so a TypeError is thrown before
-- `rotation.copy` receives a value; lines 164-184 (intrinsics copy,
-- projection update, controls refresh) are unreachable.  Without a
-- transform source, lines 185-196 copy the first declared camera's
-- intrinsics when it is a perspective camera, with no exception.
def deriveWith (env : Env) (cameras : List Node) (cam : Camera)
    (ctl : Option Controls) : Option Node × Option Node → DeriveOutcome
  | (_, some tn) =>
    ⟨{ cam with position := tn.data.worldPos }, ctl, some LoadErr.typeError⟩
  | (_, none) =>
    match cameras with
    | g0 :: _ =>
      if g0.data.isPerspectiveCamera then
        ⟨updateProjection
          { cam with fov := g0.data.fov, aspect := env.innerWidth / env.innerHeight,
                     near := g0.data.near, far := g0.data.far }, ctl, none⟩
      else ⟨cam, ctl, none⟩
    | [] => ⟨cam, ctl, none⟩

/-- Lines 137-196: resolve the camera candidates and act on the
selection. -/
def deriveCamera (env : Env) (sceneAfter model : Node) (cameras : List Node)
    (cam : Camera) (ctl : Option Controls) : DeriveOutcome :=
  deriveWith env cameras cam ctl (resolveCamera sceneAfter model)

/-- The guarded camera-handling block of lines 96-197, acting on the
loader state after the scene attachment; returns the updated state and
the exception escaping the callback, if any. -/
def afterCamera (env : Env) (st : LoaderState) (sceneAfter model : Node)
    (cameras : List Node) (opts : Options) : LoaderState × Option LoadErr :=
  if opts.useCamera == some true && !cameras.isEmpty then
    match st.cameraRef with
    | some cam =>
      let r := deriveCamera env sceneAfter model cameras cam st.controlsRef
      ({ st with cameraRef := some r.cam, controlsRef := r.ctl }, r.thrown)
    | none => (st, none)
  else (st, none)

/-! ### loadModel (lines 38-221) and loadModels (lines 228-230)

A call is determined by the decode outcome the external loader
delivers: `Except.error` models the error callback (line 215),
`Except.ok` the success callback (line 45).  An exception thrown inside
the success callback propagates into the decoder's promise chain, whose
catch handler invokes the same error callback, so the promise rejects —
after the side effects already performed (scene attachment, partial
camera mutation) have taken place.  The function returns the settled
promise value together with the loader state after the call. -/

def loadModel (env : Env) (st : LoaderState) (decode : Except String Gltf)
    (opts : Options) : Except LoadErr LoadResult × LoaderState :=
  match decode with
  | .error e => (Except.error (LoadErr.decodeErr e), st)
  | .ok gltf =>
    -- lines 48-86: transforms and shadow flags, applied before the
    -- initialization check
    let model := transformedModel opts gltf
    match st.sceneRef with
    | none => (Except.error LoadErr.notInitialized, st)
    | some scene =>
      let scene2 := addChild scene model
      let p := afterCamera env { st with sceneRef := some scene2 }
        scene2 model gltf.cameras opts
      ((match p.2 with
        | some e => Except.error e
        | none => Except.ok ⟨model, gltf.cameras, gltf.animations⟩), p.1)

/-- Sequencing of `Promise.all`: the ordered list of results when every
promise resolves, otherwise a rejection. -/
def sequenceE {ε α : Type} : List (Except ε α) → Except ε (List α)
  | [] => Except.ok []
  | Except.error e :: _ => Except.error e
  | Except.ok a :: rest => (sequenceE rest).map (fun l => a :: l)

/-- `loadModels` (lines 228-230): map `loadModel` over the requests and
aggregate with `Promise.all`.  Each call observes the same loader
state: no load changes `sceneRef`'s presence, which is all a sibling
load's outcome depends on. -/
def loadModels (env : Env) (st : LoaderState)
    (reqs : List (Except String Gltf × Options)) :
    Except LoadErr (List LoadResult) :=
  sequenceE (reqs.map (fun r => (loadModel env st r.1 r.2).1))

/-! ### Concrete fixtures used by witnesses and counterexamples -/

/-- Baseline object payload: the defaults of a freshly constructed
engine object (identity local transform, no flags set). -/
def baseData : NodeData :=
  { name := "", isCamera := false, isPerspectiveCamera := false,
    fov := 0, near := 0, far := 0, isMesh := false, castShadow := false,
    receiveShadow := false, position := ⟨0, 0, 0⟩, scale := ⟨1, 1, 1⟩,
    rotation := ⟨0, 0, 0⟩, worldPos := ⟨0, 0, 0⟩, worldQuat := ⟨0, 0, 0, 1⟩ }

def env0 : Env := { innerWidth := 16, innerHeight := 9 }

def scene0 : Node := Node.mk { baseData with name := "TheScene" } []

def clipA : String := "clipA"

def errRead : String := "read failure"

def errBoom : String := "boom"

def errGone : String := "gone"

def camData : NodeData :=
  { baseData with
      name := "EmbeddedCam", isCamera := true, isPerspectiveCamera := true,
      fov := 42, near := 1, far := 1000,
      worldPos := ⟨3, 4, 5⟩, worldQuat := ⟨1, 2, 3, 4⟩ }

def camNode : Node := Node.mk camData []

def rootData : NodeData :=
  { baseData with
      name := "Root", worldPos := ⟨7, 8, 9⟩, worldQuat := ⟨0, 1, 0, 0⟩ }

def rootNode : Node := Node.mk rootData [camNode]

def gltf1 : Gltf := ⟨rootNode, [camNode], [clipA]⟩

def cam0 : Camera :=
  { position := ⟨0, 2, 5⟩, rotation := ⟨0, 0, 0⟩, fov := 50,
    aspect := 2, near := 3, far := 500,
    projection := ⟨50, 2, 3, 500⟩ }

def ctrl0 : Controls := ⟨0⟩

def st0 : LoaderState := ⟨some scene0, some cam0, some ctrl0⟩

/-! ### Behavioural lemmas about loadModel -/

theorem loadModel_decode_error (env : Env) (st : LoaderState) (e : String)
    (opts : Options) :
    loadModel env st (Except.error e) opts =
      (Except.error (LoadErr.decodeErr e), st) := rfl

theorem loadModel_noScene (env : Env) (st : LoaderState) (g : Gltf)
    (opts : Options) (h : st.sceneRef = none) :
    loadModel env st (Except.ok g) opts =
      (Except.error LoadErr.notInitialized, st) := by
  simp [loadModel, h]

theorem loadModel_ok_fst (env : Env) (st : LoaderState) (g : Gltf)
    (opts : Options) (s : Node) (h : st.sceneRef = some s) :
    (loadModel env st (Except.ok g) opts).1 =
      (match (afterCamera env
          { st with sceneRef := some (addChild s (transformedModel opts g)) }
          (addChild s (transformedModel opts g)) (transformedModel opts g)
          g.cameras opts).2 with
       | some e => Except.error e
       | none =>
         Except.ok ⟨transformedModel opts g, g.cameras, g.animations⟩) := by
  simp [loadModel, h]

theorem loadModel_ok_state (env : Env) (st : LoaderState) (g : Gltf)
    (opts : Options) (s : Node) (h : st.sceneRef = some s) :
    (loadModel env st (Except.ok g) opts).2 =
      (afterCamera env
        { st with sceneRef := some (addChild s (transformedModel opts g)) }
        (addChild s (transformedModel opts g)) (transformedModel opts g)
        g.cameras opts).1 := by
  simp [loadModel, h]

theorem afterCamera_fst_sceneRef (env : Env) (st : LoaderState) (sa m : Node)
    (cams : List Node) (opts : Options) :
    (afterCamera env st sa m cams opts).1.sceneRef = st.sceneRef := by
  unfold afterCamera
  split
  · cases st.cameraRef <;> rfl
  · rfl

-- On every decode-success path with a bound scene — including the
-- camera-derivation crash — the scene ends with the transformed model
-- appended.
theorem loadModel_sceneRef (env : Env) (st : LoaderState) (g : Gltf)
    (opts : Options) (s : Node) (h : st.sceneRef = some s) :
    (loadModel env st (Except.ok g) opts).2.sceneRef =
      some (addChild s (transformedModel opts g)) := by
  rw [loadModel_ok_state env st g opts s h, afterCamera_fst_sceneRef]

theorem afterCamera_off (env : Env) (st : LoaderState) (sa m : Node)
    (cams : List Node) (opts : Options)
    (h : opts.useCamera ≠ some true ∨ cams = [] ∨ st.cameraRef = none) :
    afterCamera env st sa m cams opts = (st, none) := by
  unfold afterCamera
  rcases h with h | h | h
  · simp [h]
  · simp [h]
  · split
    · rw [h]
    · rfl

theorem afterCamera_on (env : Env) (st : LoaderState) (sa m : Node)
    (cams : List Node) (opts : Options) (cam : Camera)
    (hu : opts.useCamera = some true) (hne : cams ≠ [])
    (hc : st.cameraRef = some cam) :
    afterCamera env st sa m cams opts =
      ({ st with
          cameraRef := some (deriveCamera env sa m cams cam st.controlsRef).cam,
          controlsRef := (deriveCamera env sa m cams cam st.controlsRef).ctl },
       (deriveCamera env sa m cams cam st.controlsRef).thrown) := by
  unfold afterCamera
  have hemp : cams.isEmpty = false := by cases cams with
    | nil => exact absurd rfl hne
    | cons a l => rfl
  simp [hu, hemp, hc]

/-! ### Claim C2 -/

/-- C2 counterexample: with no scene bound, a load whose decode fails is
rejected with the forwarded decode error, not with the
not-initialized error — so "always rejects with a NotInitializedError
(never any other error kind)" is false. -/
theorem C2_counterexample :
    (loadModel env0 ⟨none, none, none⟩ (Except.error errRead) {}).1 =
      Except.error (LoadErr.decodeErr errRead) ∧
    LoadErr.decodeErr errRead ≠ LoadErr.notInitialized := by
  exact ⟨rfl, by decide⟩

/-- C2 (amended): if `load` runs before a scene is bound, the promise
always rejects — with the not-initialized error when the decode
succeeded, and with the forwarded decode error when the decode failed —
and the loader state (in particular the absent scene) is never
mutated. -/
theorem C2_thm (env : Env) (st : LoaderState) (decode : Except String Gltf)
    (opts : Options) (h : st.sceneRef = none) :
    (loadModel env st decode opts).1 =
      Except.error (match decode with
        | Except.error c => LoadErr.decodeErr c
        | Except.ok _ => LoadErr.notInitialized) ∧
    (loadModel env st decode opts).2 = st := by
  cases decode with
  | error e => exact ⟨rfl, rfl⟩
  | ok g => rw [loadModel_noScene env st g opts h]; exact ⟨rfl, rfl⟩

/-- C2 witness: the amended claim at a concrete uninitialized state,
for both decode outcomes. -/
theorem C2_witness :
    ((loadModel env0 ⟨none, none, none⟩ (Except.ok gltf1) {}).1 =
       Except.error LoadErr.notInitialized ∧
     (loadModel env0 ⟨none, none, none⟩ (Except.ok gltf1) {}).2 =
       ⟨none, none, none⟩) ∧
    ((loadModel env0 ⟨none, none, none⟩ (Except.error errBoom) {}).1 =
       Except.error (LoadErr.decodeErr errBoom) ∧
     (loadModel env0 ⟨none, none, none⟩ (Except.error errBoom) {}).2 =
       ⟨none, none, none⟩) :=
  ⟨C2_thm env0 ⟨none, none, none⟩ (Except.ok gltf1) {} rfl,
   C2_thm env0 ⟨none, none, none⟩ (Except.error errBoom) {} rfl⟩

/-! ### Claim C6 -/

/-- C6: whenever `useCamera` is not set to true, or no camera was ever
bound, or the decoded asset exposes no embedded camera, the load leaves
the bound camera reference (hence its whole state: position,
orientation, fov, near, far, aspect, projection) and the controls
untouched. -/
theorem C6_thm (env : Env) (st : LoaderState) (decode : Except String Gltf)
    (opts : Options)
    (h : opts.useCamera ≠ some true ∨ st.cameraRef = none ∨
         ∀ g, decode = Except.ok g → g.cameras = []) :
    (loadModel env st decode opts).2.cameraRef = st.cameraRef ∧
    (loadModel env st decode opts).2.controlsRef = st.controlsRef := by
  cases decode with
  | error e => exact ⟨rfl, rfl⟩
  | ok g =>
    cases hs : st.sceneRef with
    | none => rw [loadModel_noScene env st g opts hs]; exact ⟨rfl, rfl⟩
    | some s =>
      have hoff : opts.useCamera ≠ some true ∨ g.cameras = [] ∨
          st.cameraRef = none := by
        rcases h with h | h | h
        · exact Or.inl h
        · exact Or.inr (Or.inr h)
        · exact Or.inr (Or.inl (h g rfl))
      rw [loadModel_ok_state env st g opts s hs,
        afterCamera_off env
          { st with sceneRef := some (addChild s (transformedModel opts g)) }
          (addChild s (transformedModel opts g)) (transformedModel opts g)
          g.cameras opts hoff]
      exact ⟨rfl, rfl⟩

/-- C6 witness: a load with `useCamera` omitted leaves the bound camera
and controls of the concrete initialized state unchanged. -/
theorem C6_witness :
    (loadModel env0 st0 (Except.ok gltf1) {}).2.cameraRef = st0.cameraRef ∧
    (loadModel env0 st0 (Except.ok gltf1) {}).2.controlsRef = st0.controlsRef :=
  C6_thm env0 st0 (Except.ok gltf1) {} (Or.inl (by decide))

/-! ### Claim C8 -/

/-- C8: single-load atomicity fails on the camera-derivation crash
path — with a bound scene and camera, `useCamera` true and a
node-attached embedded camera, the model is attached to the scene
(line 93) and then line 163 throws, so the promise rejects with the
TypeError while the scene has nevertheless gained the fully transformed
hierarchy as a new child. -/
theorem C8_thm :
    (loadModel env0 st0 (Except.ok gltf1) { useCamera := some true }).1 =
      Except.error LoadErr.typeError ∧
    (loadModel env0 st0 (Except.ok gltf1)
        { useCamera := some true }).2.sceneRef =
      some (addChild scene0
        (transformedModel { useCamera := some true } gltf1)) ∧
    addChild scene0 (transformedModel { useCamera := some true } gltf1) ≠
      scene0 := by
  decide

/-! ### Claim C10 -/

/-- C10: the render-context state is last-write-wins — `setScene` and
`setCamera` unconditionally overwrite the stored references, repeated
calls keep only the latest, and a subsequent load attaches to the most
recently supplied scene; no set-once restriction is enforced. -/
theorem C10_thm (st : LoaderState) (s1 s2 : Node) (c1 c2 : Camera)
    (k1 k2 : Option Controls) (env : Env) (g : Gltf) (opts : Options) :
    setScene s2 (setScene s1 st) = setScene s2 st ∧
    setCamera c2 k2 (setCamera c1 k1 st) = setCamera c2 k2 st ∧
    (setScene s2 st).sceneRef = some s2 ∧
    (setScene s2 st).cameraRef = st.cameraRef ∧
    (setCamera c2 k2 st).cameraRef = some c2 ∧
    (setCamera c2 k2 st).controlsRef = k2 ∧
    (setCamera c2 k2 st).sceneRef = st.sceneRef ∧
    (loadModel env (setScene s2 st) (Except.ok g) opts).2.sceneRef =
      some (addChild s2 (transformedModel opts g)) := by
  refine ⟨rfl, rfl, rfl, rfl, rfl, rfl, rfl, ?_⟩
  exact loadModel_sceneRef env (setScene s2 st) g opts s2 rfl

/-! ### Claim C4 -/

theorem setRootPos_data (n : Node) (p : Vec3) :
    (setRootPos n p).data = { n.data with position := p } := rfl

theorem setRootScale_data (n : Node) (v : Vec3) :
    (setRootScale n v).data = { n.data with scale := v } := rfl

theorem setRootRot_data (n : Node) (e : Euler) :
    (setRootRot n e).data = { n.data with rotation := e } := rfl

theorem markShadows_data (n : Node) :
    (markShadows n).data =
      (if n.data.isMesh then
        { n.data with castShadow := true, receiveShadow := true }
       else n.data) := by
  cases n with
  | mk d cs => simp only [markShadows, Node.data]

theorem applyPosition_data (opts : Options) (n : Node) :
    (applyPosition opts n).data =
      { n.data with position :=
          (match opts.position with
           | none => n.data.position
           | some (VecOption.arr x y z) => ⟨x, y, z⟩
           | some (VecOption.vec v) => v) } := by
  unfold applyPosition
  rcases opts.position with _ | (⟨x, y, z⟩ | ⟨v⟩) <;> rfl

theorem applyScale_data (opts : Options) (n : Node) :
    (applyScale opts n).data =
      { n.data with scale :=
          (match opts.scale with
           | none => n.data.scale
           | some (ScaleOption.num k) => ⟨k, k, k⟩
           | some (ScaleOption.arr x y z) => ⟨x, y, z⟩
           | some (ScaleOption.vec v) => v) } := by
  unfold applyScale
  rcases opts.scale with _ | (⟨k⟩ | ⟨x, y, z⟩ | ⟨v⟩) <;> rfl

theorem applyRotation_data (opts : Options) (n : Node) :
    (applyRotation opts n).data =
      { n.data with rotation :=
          (match opts.rotation with
           | none => n.data.rotation
           | some (RotOption.arr x y z) => ⟨x, y, z⟩
           | some (RotOption.eul e) => e) } := by
  unfold applyRotation
  rcases opts.rotation with _ | (⟨x, y, z⟩ | ⟨e⟩) <;> rfl

-- The root transform after the whole option-application pipeline.
theorem transformedModel_data (opts : Options) (g : Gltf) :
    (transformedModel opts g).data.position =
      (match opts.position with
       | none => g.scene.data.position
       | some (VecOption.arr x y z) => ⟨x, y, z⟩
       | some (VecOption.vec v) => v) ∧
    (transformedModel opts g).data.scale =
      (match opts.scale with
       | none => g.scene.data.scale
       | some (ScaleOption.num k) => ⟨k, k, k⟩
       | some (ScaleOption.arr x y z) => ⟨x, y, z⟩
       | some (ScaleOption.vec v) => v) ∧
    (transformedModel opts g).data.rotation =
      (match opts.rotation with
       | none => g.scene.data.rotation
       | some (RotOption.arr x y z) => ⟨x, y, z⟩
       | some (RotOption.eul e) => e) := by
  have hpipe :
      (applyRotation opts (applyScale opts (applyPosition opts g.scene))).data =
        { g.scene.data with
            position :=
              (match opts.position with
               | none => g.scene.data.position
               | some (VecOption.arr x y z) => ⟨x, y, z⟩
               | some (VecOption.vec v) => v),
            scale :=
              (match opts.scale with
               | none => g.scene.data.scale
               | some (ScaleOption.num k) => ⟨k, k, k⟩
               | some (ScaleOption.arr x y z) => ⟨x, y, z⟩
               | some (ScaleOption.vec v) => v),
            rotation :=
              (match opts.rotation with
               | none => g.scene.data.rotation
               | some (RotOption.arr x y z) => ⟨x, y, z⟩
               | some (RotOption.eul e) => e) } := by
    rw [applyRotation_data, applyScale_data, applyPosition_data]
  unfold transformedModel
  split
  · rw [markShadows_data, hpipe]
    split <;> exact ⟨rfl, rfl, rfl⟩
  · rw [hpipe]
    exact ⟨rfl, rfl, rfl⟩

/-- C4: for every load that actually resolves, the result's hierarchy
is the one attached to the scene and its root transform exactly equals
the supplied placement options — a uniform scalar scale becomes the
same scale on all three axes, and an omitted position/scale/rotation
leaves the decoder-produced identity root transform: origin, unit
scale, identity rotation. -/
theorem C4_thm (env : Env) (st : LoaderState) (g : Gltf) (opts : Options)
    (s : Node) (r : LoadResult) (st2 : LoaderState)
    (hs : st.sceneRef = some s)
    (hpos : g.scene.data.position = ⟨0, 0, 0⟩)
    (hscale : g.scene.data.scale = ⟨1, 1, 1⟩)
    (hrot : g.scene.data.rotation = ⟨0, 0, 0⟩)
    (hok : loadModel env st (Except.ok g) opts = (Except.ok r, st2)) :
    r.model = transformedModel opts g ∧
    st2.sceneRef = some (addChild s r.model) ∧
    r.model.data.position =
      (match opts.position with
       | none => ⟨0, 0, 0⟩
       | some (VecOption.arr x y z) => ⟨x, y, z⟩
       | some (VecOption.vec v) => v) ∧
    r.model.data.scale =
      (match opts.scale with
       | none => ⟨1, 1, 1⟩
       | some (ScaleOption.num k) => ⟨k, k, k⟩
       | some (ScaleOption.arr x y z) => ⟨x, y, z⟩
       | some (ScaleOption.vec v) => v) ∧
    r.model.data.rotation =
      (match opts.rotation with
       | none => ⟨0, 0, 0⟩
       | some (RotOption.arr x y z) => ⟨x, y, z⟩
       | some (RotOption.eul e) => e) := by
  have hfst : (loadModel env st (Except.ok g) opts).1 = Except.ok r := by
    rw [hok]
  have hsnd : (loadModel env st (Except.ok g) opts).2 = st2 := by
    rw [hok]
  rw [loadModel_ok_fst env st g opts s hs] at hfst
  rcases hth : (afterCamera env
      { st with sceneRef := some (addChild s (transformedModel opts g)) }
      (addChild s (transformedModel opts g)) (transformedModel opts g)
      g.cameras opts).2 with _ | e
  · simp only [hth] at hfst
    have hr : r = ⟨transformedModel opts g, g.cameras, g.animations⟩ := by
      injection hfst with h
      exact h.symm
    subst hr
    obtain ⟨h1, h2, h3⟩ := transformedModel_data opts g
    refine ⟨rfl, ?_, ?_, ?_, ?_⟩
    · rw [← hsnd]
      exact loadModel_sceneRef env st g opts s hs
    · show (transformedModel opts g).data.position = _
      rw [h1, hpos]
    · show (transformedModel opts g).data.scale = _
      rw [h2, hscale]
    · show (transformedModel opts g).data.rotation = _
      rw [h3, hrot]
  · simp only [hth] at hfst
    exact Except.noConfusion hfst

def opts4 : Options :=
  { position := some (VecOption.arr 1 2 3), scale := some (ScaleOption.num 2) }

def res4 : LoadResult :=
  ⟨transformedModel opts4 gltf1, gltf1.cameras, gltf1.animations⟩

def st4 : LoaderState :=
  ⟨some (addChild scene0 (transformedModel opts4 gltf1)), some cam0,
   some ctrl0⟩

/-- C4 witness: a concrete resolving load with an array position,
uniform scalar scale 2 and omitted rotation yields root position
(1,2,3), scale (2,2,2) and identity rotation on the attached root. -/
theorem C4_witness :
    res4.model = transformedModel opts4 gltf1 ∧
    st4.sceneRef = some (addChild scene0 res4.model) ∧
    res4.model.data.position = ⟨1, 2, 3⟩ ∧
    res4.model.data.scale = ⟨2, 2, 2⟩ ∧
    res4.model.data.rotation = ⟨0, 0, 0⟩ :=
  C4_thm env0 st0 gltf1 opts4 scene0 res4 st4 rfl rfl rfl rfl rfl

/-! ### Claim C5 -/

/-- The mesh/shadow flags of every object of a hierarchy, in traversal
order; placement of the root does not disturb this list. -/
def shadowFlags (n : Node) : List (Bool × Bool × Bool) :=
  (allNodes n).map (fun m => (m.data.isMesh, m.data.castShadow, m.data.receiveShadow))

theorem shadowFlags_setRootPos (n : Node) (p : Vec3) :
    shadowFlags (setRootPos n p) = shadowFlags n := by
  cases n with | mk d cs => rfl

theorem shadowFlags_setRootScale (n : Node) (v : Vec3) :
    shadowFlags (setRootScale n v) = shadowFlags n := by
  cases n with | mk d cs => rfl

theorem shadowFlags_setRootRot (n : Node) (e : Euler) :
    shadowFlags (setRootRot n e) = shadowFlags n := by
  cases n with | mk d cs => rfl

theorem shadowFlags_pipeline (opts : Options) (n : Node) :
    shadowFlags (applyRotation opts (applyScale opts (applyPosition opts n))) =
      shadowFlags n := by
  have h1 : shadowFlags (applyPosition opts n) = shadowFlags n := by
    unfold applyPosition
    rcases opts.position with _ | (⟨x, y, z⟩ | ⟨v⟩)
    · rfl
    · exact shadowFlags_setRootPos n _
    · exact shadowFlags_setRootPos n _
  have h2 : ∀ m : Node, shadowFlags (applyScale opts m) = shadowFlags m := by
    intro m
    unfold applyScale
    rcases opts.scale with _ | (⟨k⟩ | ⟨x, y, z⟩ | ⟨v⟩)
    · rfl
    · exact shadowFlags_setRootScale m _
    · exact shadowFlags_setRootScale m _
    · exact shadowFlags_setRootScale m _
  have h3 : ∀ m : Node, shadowFlags (applyRotation opts m) = shadowFlags m := by
    intro m
    unfold applyRotation
    rcases opts.rotation with _ | (⟨x, y, z⟩ | ⟨e⟩)
    · rfl
    · exact shadowFlags_setRootRot m _
    · exact shadowFlags_setRootRot m _
  rw [h3, h2, h1]

theorem shadowFlags_transport {n1 n2 : Node}
    (h : shadowFlags n1 = shadowFlags n2) (P : Bool × Bool × Bool → Prop)
    (hall : ∀ m ∈ allNodes n2,
      P (m.data.isMesh, m.data.castShadow, m.data.receiveShadow)) :
    ∀ m ∈ allNodes n1,
      P (m.data.isMesh, m.data.castShadow, m.data.receiveShadow) := by
  intro m hm
  have hmem : (m.data.isMesh, m.data.castShadow, m.data.receiveShadow) ∈
      shadowFlags n1 := List.mem_map_of_mem _ hm
  rw [h] at hmem
  obtain ⟨m2, hm2, he⟩ := List.mem_map.1 hmem
  have := hall m2 hm2
  rw [he] at this
  exact this

theorem markShadowsL_eq_map (l : List Node) :
    markShadowsL l = l.map markShadows := by
  induction l with
  | nil => rfl
  | cons c cs ih => simp [markShadowsL, ih]

theorem markShadows_marks :
    ∀ m : Node, ∀ n ∈ allNodes (markShadows m), n.data.isMesh = true →
      n.data.castShadow = true ∧ n.data.receiveShadow = true := by
  intro m
  induction m using Node.ind with
  | _ d cs ih =>
    intro n hn hm
    have hms : markShadows (Node.mk d cs) =
        Node.mk
          (if d.isMesh then
            { d with castShadow := true, receiveShadow := true } else d)
          (markShadowsL cs) := rfl
    rw [hms] at hn
    have hall : allNodes (Node.mk
        (if d.isMesh then
          { d with castShadow := true, receiveShadow := true } else d)
        (markShadowsL cs)) =
        Node.mk
          (if d.isMesh then
            { d with castShadow := true, receiveShadow := true } else d)
          (markShadowsL cs) :: allNodesL (markShadowsL cs) := rfl
    rw [hall] at hn
    rcases List.mem_cons.1 hn with hroot | htail
    · subst hroot
      simp only [Node.data] at hm ⊢
      by_cases hmesh : d.isMesh = true
      · rw [if_pos hmesh]
        exact ⟨rfl, rfl⟩
      · rw [if_neg hmesh] at hm
        exact absurd hm hmesh
    · rw [markShadowsL_eq_map] at htail
      obtain ⟨c', hc', hnc⟩ := mem_allNodesL.1 htail
      obtain ⟨c, hc, rfl⟩ := List.mem_map.1 hc'
      exact ih c hc n hnc hm

/-- C5: on a successful load, `shadows: false` leaves every node of an
initially unmarked hierarchy unmarked (no mesh is a caster or
receiver), while any other `shadows` value (including omitted) marks
every mesh of the attached hierarchy as both caster and receiver. -/
theorem C5_thm (env : Env) (st : LoaderState) (g : Gltf) (opts : Options)
    (s : Node) (hs : st.sceneRef = some s) :
    ((loadModel env st (Except.ok g) opts).2.sceneRef =
      some (addChild s (transformedModel opts g))) ∧
    (opts.shadows = some false →
      (∀ n ∈ allNodes g.scene,
        n.data.castShadow = false ∧ n.data.receiveShadow = false) →
      ∀ n ∈ allNodes (transformedModel opts g), n.data.isMesh = true →
        n.data.castShadow = false ∧ n.data.receiveShadow = false) ∧
    (opts.shadows ≠ some false →
      ∀ n ∈ allNodes (transformedModel opts g), n.data.isMesh = true →
        n.data.castShadow = true ∧ n.data.receiveShadow = true) := by
  refine ⟨?_, ?_, ?_⟩
  · exact loadModel_sceneRef env st g opts s hs
  · intro hf hinit
    have htm : transformedModel opts g =
        applyRotation opts (applyScale opts (applyPosition opts g.scene)) := by
      unfold transformedModel
      rw [if_neg (by simp [hf])]
    rw [htm]
    have := shadowFlags_transport (shadowFlags_pipeline opts g.scene)
      (fun t => t.2.1 = false ∧ t.2.2 = false)
      (fun m hm => hinit m hm)
    exact fun n hn _ => this n hn
  · intro hf
    have htm : transformedModel opts g =
        markShadows
          (applyRotation opts (applyScale opts (applyPosition opts g.scene))) := by
      unfold transformedModel
      rw [if_pos hf]
    rw [htm]
    exact markShadows_marks _

def meshChild : Node :=
  Node.mk { baseData with name := "MeshA", isMesh := true } []

def meshRoot : Node := Node.mk { baseData with name := "Root2" } [meshChild]

def gltf5 : Gltf := ⟨meshRoot, [], []⟩

def markedMesh : Node :=
  Node.mk { baseData with
      name := "MeshA", isMesh := true, castShadow := true,
      receiveShadow := true } []

/-- C5 witness: on a concrete one-mesh asset, the default options mark
the mesh both ways, while `shadows: false` leaves it unmarked. -/
theorem C5_witness :
    ((loadModel env0 st0 (Except.ok gltf5) {}).2.sceneRef =
      some (addChild scene0 (transformedModel {} gltf5))) ∧
    (markedMesh.data.castShadow = true ∧
     markedMesh.data.receiveShadow = true) ∧
    (meshChild.data.castShadow = false ∧
     meshChild.data.receiveShadow = false) := by
  refine ⟨(C5_thm env0 st0 gltf5 {} scene0 rfl).1, ?_, ?_⟩
  · exact (C5_thm env0 st0 gltf5 {} scene0 rfl).2.2 (by decide) markedMesh
      (by decide) (by decide)
  · exact (C5_thm env0 st0 gltf5 { shadows := some false } scene0 rfl).2.1 rfl
      (by decide) meshChild (by decide) (by decide)

/-! ### Claim C7 -/

theorem sequenceE_all_ok {ε α : Type} (l : List (Except ε α))
    (h : ∀ x ∈ l, x.isOk = true) :
    ∃ rs, sequenceE l = Except.ok rs ∧ rs.length = l.length ∧
      ∀ (i : Nat) (hi : i < l.length) (hj : i < rs.length),
        Except.ok (rs.get ⟨i, hj⟩) = l.get ⟨i, hi⟩ := by
  induction l with
  | nil =>
    refine ⟨[], rfl, rfl, ?_⟩
    intro i hi
    exact absurd hi (Nat.not_lt_zero i)
  | cons x xs ih =>
    cases x with
    | error e =>
      exact absurd (h _ (List.mem_cons_self _ _))
        (by simp [Except.isOk, Except.toBool])
    | ok a =>
      obtain ⟨rs, hrs, hlen, hget⟩ := ih (fun y hy => h y (List.mem_cons_of_mem _ hy))
      refine ⟨a :: rs, ?_, by simp [hlen], ?_⟩
      · simp [sequenceE, hrs, Except.map]
      · intro i hi hj
        cases i with
        | zero => rfl
        | succ k =>
          exact hget k (Nat.lt_of_succ_lt_succ hi) (Nat.lt_of_succ_lt_succ hj)

theorem sequenceE_has_err {ε α : Type} (l : List (Except ε α))
    (h : ∃ x ∈ l, x.isOk = false) :
    ∃ e, sequenceE l = Except.error e := by
  induction l with
  | nil => obtain ⟨x, hx, -⟩ := h; exact absurd hx (List.not_mem_nil x)
  | cons x xs ih =>
    cases x with
    | error e => exact ⟨e, rfl⟩
    | ok a =>
      obtain ⟨y, hy, hyf⟩ := h
      rcases List.mem_cons.1 hy with rfl | hmem
      · exact absurd hyf (by simp [Except.isOk, Except.toBool])
      · obtain ⟨e, he⟩ := ih ⟨y, hmem, hyf⟩
        exact ⟨e, by simp [sequenceE, he, Except.map]⟩

/-- C7: `loadMultiple` maps `load` over all requests; when every
individual load succeeds it resolves with a result sequence of the same
length whose i-th entry is the i-th request's own load result, and when
any individual load fails the aggregate fails as a whole with a single
rejection. -/
theorem C7_thm (env : Env) (st : LoaderState)
    (reqs : List (Except String Gltf × Options)) :
    ((∀ r ∈ reqs, ((loadModel env st r.1 r.2).1).isOk = true) →
      ∃ rs, loadModels env st reqs = Except.ok rs ∧
        rs.length = reqs.length ∧
        ∀ (i : Nat) (hi : i < reqs.length) (hj : i < rs.length),
          Except.ok (rs.get ⟨i, hj⟩) =
            (loadModel env st (reqs.get ⟨i, hi⟩).1 (reqs.get ⟨i, hi⟩).2).1) ∧
    ((∃ r ∈ reqs, ((loadModel env st r.1 r.2).1).isOk = false) →
      ∃ e, loadModels env st reqs = Except.error e) := by
  constructor
  · intro h
    have hall : ∀ x ∈ reqs.map (fun r => (loadModel env st r.1 r.2).1),
        x.isOk = true := by
      intro x hx
      obtain ⟨r, hr, rfl⟩ := List.mem_map.1 hx
      exact h r hr
    obtain ⟨rs, hrs, hlen, hget⟩ :=
      sequenceE_all_ok (reqs.map (fun r => (loadModel env st r.1 r.2).1)) hall
    refine ⟨rs, hrs, by simpa using hlen, ?_⟩
    intro i hi hj
    have hi2 : i < (reqs.map (fun r => (loadModel env st r.1 r.2).1)).length := by
      simpa using hi
    rw [hget i hi2 hj]
    exact List.getElem_map _
  · intro h
    obtain ⟨r, hr, hrf⟩ := h
    exact sequenceE_has_err _
      ⟨(loadModel env st r.1 r.2).1, List.mem_map_of_mem _ hr, hrf⟩

def reqs7 : List (Except String Gltf × Options) :=
  [(Except.ok gltf1, {}), (Except.ok gltf5, { shadows := some false })]

/-- C7 witness: a concrete two-request batch where both loads succeed
aggregates to a resolved list, and the same batch with a failing decode
appended aggregates to a rejection. -/
theorem C7_witness :
    (loadModels env0 st0 reqs7).isOk = true ∧
    (loadModels env0 st0 ((Except.error errGone, ({} : Options)) :: reqs7)).isOk
      = false := by
  constructor
  · obtain ⟨rs, hrs, -, -⟩ := (C7_thm env0 st0 reqs7).1 (by decide)
    rw [hrs]
    rfl
  · obtain ⟨e, he⟩ :=
      (C7_thm env0 st0 ((Except.error errGone, ({} : Options)) :: reqs7)).2
        ⟨(Except.error errGone, ({} : Options)), by decide⟩
    rw [he]
    rfl

/-! ### Claims C1 and C9 -/

-- The crash of line 163, as a rewriting lemma: any resolved transform
-- source yields the position copy, no further mutation, and the thrown
-- TypeError.
theorem deriveWith_transform (env : Env) (cameras : List Node) (cam : Camera)
    (ctl : Option Controls) (cu : Option Node) (tn : Node) :
    deriveWith env cameras cam ctl (cu, some tn) =
      ⟨{ cam with position := tn.data.worldPos }, ctl,
       some LoadErr.typeError⟩ := rfl

theorem deriveWith_none_nil (env : Env) (cam : Camera)
    (ctl : Option Controls) (c1 : Option Node) :
    deriveWith env [] cam ctl (c1, none) = ⟨cam, ctl, none⟩ := rfl

theorem deriveWith_none_cons (env : Env) (g0 : Node) (rest : List Node)
    (cam : Camera) (ctl : Option Controls) (c1 : Option Node) :
    deriveWith env (g0 :: rest) cam ctl (c1, none) =
      (if g0.data.isPerspectiveCamera then
        ⟨updateProjection
          { cam with
              fov := g0.data.fov,
              aspect := env.innerWidth / env.innerHeight,
              near := g0.data.near, far := g0.data.far }, ctl, none⟩
       else ⟨cam, ctl, none⟩) := rfl

/-- C1: the claim's scenario is exactly the program's crash path. On
the concrete asset whose only embedded camera is attached to a node,
with `useCamera` true and scene and camera bound, a transform source
resolves; the program copies the node's world position onto the bound
camera and then line 163 calls `worldQuat.toEuler`, a method
`THREE.Quaternion` does not have, so a TypeError is thrown: the world
orientation and the intrinsics are never copied — the camera keeps its
previous rotation, fov, near, far, aspect and projection — and the
load rejects with the TypeError instead of resolving. -/
theorem C1_thm :
    ((resolveCamera
        (addChild scene0 (transformedModel { useCamera := some true } gltf1))
        (transformedModel { useCamera := some true } gltf1)).2).isSome =
      true ∧
    (loadModel env0 st0 (Except.ok gltf1) { useCamera := some true }).1 =
      Except.error LoadErr.typeError ∧
    (loadModel env0 st0 (Except.ok gltf1)
        { useCamera := some true }).2.cameraRef =
      some { cam0 with position := rootNode.data.worldPos } := by
  decide

def orthoCam : Node :=
  Node.mk { baseData with name := "Ortho", isCamera := true, fov := 33 } []

def plainRoot : Node :=
  Node.mk { baseData with name := "PlainRoot" }
    [Node.mk { baseData with name := "Child" } []]

def gltf9 : Gltf := ⟨plainRoot, [orthoCam], []⟩

def gltf9p : Gltf := ⟨plainRoot, [camNode], []⟩

/-- C9 counterexample: `useCamera` is true, a camera is bound, the
asset declares one (orthographic) camera and no transform source
resolves, yet nothing is copied onto the bound camera — its fov stays
50 while the first declared camera's fov is 33 — refuting the
unconditional "copies fov/near/far from the first declared camera". -/
theorem C9_counterexample :
    (resolveCamera
        (addChild scene0 (transformedModel { useCamera := some true } gltf9))
        (transformedModel { useCamera := some true } gltf9)).2 = none ∧
    gltf9.cameras = [orthoCam] ∧
    (loadModel env0 st0 (Except.ok gltf9)
        { useCamera := some true }).2.cameraRef = some cam0 ∧
    cam0.fov = 50 ∧ orthoCam.data.fov = 33 := by decide

/-- C9 (amended): when no transform source resolves but the asset
declares at least one camera, the load leaves the bound camera's
position and orientation untouched, and copies the first declared
camera's fov/near/far (with recomputed aspect) exactly when that camera
is a perspective camera; a non-perspective first camera leaves the
bound camera entirely unchanged. -/
theorem C9_thm (env : Env) (st : LoaderState) (g : Gltf) (opts : Options)
    (s : Node) (cam : Camera)
    (hs : st.sceneRef = some s) (hc : st.cameraRef = some cam)
    (hu : opts.useCamera = some true) (hne : g.cameras ≠ [])
    (hres : (resolveCamera (addChild s (transformedModel opts g))
        (transformedModel opts g)).2 = none) :
    ∃ cam2, (loadModel env st (Except.ok g) opts).2.cameraRef = some cam2 ∧
      cam2.position = cam.position ∧ cam2.rotation = cam.rotation ∧
      ∀ g0 rest, g.cameras = g0 :: rest →
        (g0.data.isPerspectiveCamera = true →
          cam2.fov = g0.data.fov ∧ cam2.near = g0.data.near ∧
          cam2.far = g0.data.far ∧
          cam2.aspect = env.innerWidth / env.innerHeight) ∧
        (g0.data.isPerspectiveCamera = false → cam2 = cam) := by
  rw [loadModel_ok_state env st g opts s hs]
  rw [afterCamera_on env
        { st with sceneRef := some (addChild s (transformedModel opts g)) }
        (addChild s (transformedModel opts g)) (transformedModel opts g)
        g.cameras opts cam hu hne hc]
  rcases hr : resolveCamera (addChild s (transformedModel opts g))
      (transformedModel opts g) with ⟨c1, c2⟩
  rw [hr] at hres
  simp only at hres
  subst hres
  refine ⟨_, rfl, ?_⟩
  unfold deriveCamera
  rw [hr]
  rcases hcs : g.cameras with _ | ⟨g0, rest⟩
  · rw [deriveWith_none_nil]
    exact ⟨rfl, rfl, fun g1 r1 h1 => by cases h1⟩
  · rw [deriveWith_none_cons]
    by_cases hpc : g0.data.isPerspectiveCamera = true
    · rw [if_pos hpc]
      refine ⟨rfl, rfl, fun g1 r1 h1 => ?_⟩
      cases h1
      exact ⟨fun _ => ⟨rfl, rfl, rfl, rfl⟩,
        fun hfalse => absurd hpc (by simp [hfalse])⟩
    · rw [if_neg hpc]
      refine ⟨rfl, rfl, fun g1 r1 h1 => ?_⟩
      cases h1
      exact ⟨fun htrue => absurd htrue hpc, fun _ => rfl⟩

/-- C9 witness: with a perspective first declared camera and no
transform source, only the intrinsics are copied — position and
rotation stay at the bound camera's previous values. -/
theorem C9_witness :
    (loadModel env0 st0 (Except.ok gltf9p)
        { useCamera := some true }).2.cameraRef.map
        (fun c => (c.position, c.rotation, c.fov, c.near, c.far, c.aspect)) =
      some (cam0.position, cam0.rotation, camData.fov, camData.near,
        camData.far, env0.innerWidth / env0.innerHeight) := by
  obtain ⟨cam2, h1, h2, h3, h4⟩ :=
    C9_thm env0 st0 gltf9p { useCamera := some true } scene0 cam0
      rfl rfl rfl (by decide) (by decide)
  obtain ⟨hf, hn, hfar, ha⟩ := (h4 camNode [] rfl).1 (by decide)
  rw [h1]
  exact congrArg some
    (Prod.ext h2 (Prod.ext h3 (Prod.ext hf (Prod.ext hn (Prod.ext hfar ha)))))

/-! ### Claim C3 -/

theorem orElse_eq_or {α : Type} (a b : Option α) :
    (a.orElse fun _ => b) = a.or b := by
  cases a <;> rfl

theorem getObjectByNameL_eq_find (s : String) :
    ∀ l : List Node,
      (∀ c ∈ l,
        getObjectByName c s = (allNodes c).find? (fun m => m.data.name == s)) →
      getObjectByNameL l s =
        (allNodesL l).find? (fun m => m.data.name == s) := by
  intro l
  induction l with
  | nil => intro _; rfl
  | cons c rest ihl =>
    intro hml
    simp only [getObjectByNameL, allNodesL]
    rw [List.find?_append, hml c (List.mem_cons_self c rest),
      ihl (fun c2 hc2 => hml c2 (List.mem_cons_of_mem c hc2)), orElse_eq_or]

-- The engine's name search is the first exact match in depth-first
-- preorder.
theorem getObjectByName_eq_find :
    ∀ (n : Node) (s : String),
      getObjectByName n s = (allNodes n).find? (fun m => m.data.name == s) := by
  intro n
  induction n using Node.ind with
  | _ d cs ih =>
    intro s
    have hlist := getObjectByNameL_eq_find s cs (fun c hc => ih c hc s)
    simp only [getObjectByName, allNodes]
    by_cases h : d.name = s
    · rw [if_pos h, List.find?_cons_of_pos]
      simp [Node.data, h]
    · rw [if_neg h, List.find?_cons_of_neg, hlist]
      simp [Node.data, h]

def mainCamGrandchild : Node :=
  Node.mk { baseData with name := "MAIN CAMERA" } []

def model3c : Node :=
  Node.mk { baseData with name := "SceneRoot" }
    [Node.mk { baseData with name := "Inner" } [mainCamGrandchild]]

/-- C3 counterexample: the hierarchy contains a (non-root-child) node
named "MAIN CAMERA", which matches "Main Camera" case-insensitively,
yet the lookup finds nothing — the name-list matching is exact and
case-sensitive, not case-insensitive. -/
theorem C3_counterexample :
    namedLookup model3c = none ∧
    mainCamGrandchild ∈ allNodes model3c ∧
    mainCamGrandchild.data.name.data.map lowerChar =
      nameMainCameraSp.data.map lowerChar := by
  refine ⟨by decide, by decide, by decide⟩

/-- C3 (amended): the named-node lookup tries the exact, case-sensitive
names "Camera", "Main Camera", "camera", "MainCamera" in that order,
resolving each to the first matching node in depth-first preorder, and
failing all four selects the first direct child of the root whose
nonempty name contains the substring "camera" after lower-casing; the
found node is appended to the collected camera nodes only if not
already collected. -/
theorem C3_thm (model : Node) (nodes : List Node) :
    namedLookup model =
      (((((allNodes model).find? (fun m => m.data.name == nameCamera)).or
          ((allNodes model).find? (fun m => m.data.name == nameMainCameraSp))).or
          ((allNodes model).find? (fun m => m.data.name == nameCameraLc))).or
          ((allNodes model).find? (fun m => m.data.name == nameMainCamera))).or
          (model.children.find? (fun c =>
            !(c.data.name == "") && lowerIncludes c.data.name nameCameraLc)) ∧
    (∀ n, namedLookup model = some n →
      nodes.any (fun t => nodeBEq t n) = false →
      appendNamed nodes model = nodes ++ [n]) ∧
    (∀ n, namedLookup model = some n →
      nodes.any (fun t => nodeBEq t n) = true →
      appendNamed nodes model = nodes) ∧
    (namedLookup model = none → appendNamed nodes model = nodes) := by
  refine ⟨?_, ?_, ?_, ?_⟩
  · unfold namedLookup
    rw [getObjectByName_eq_find, getObjectByName_eq_find,
      getObjectByName_eq_find, getObjectByName_eq_find,
      orElse_eq_or, orElse_eq_or, orElse_eq_or, orElse_eq_or]
  · intro n hn hmem
    unfold appendNamed
    rw [hn]
    show (if (nodes.any fun t => nodeBEq t n) = true then nodes
      else nodes ++ [n]) = nodes ++ [n]
    rw [hmem]
    rfl
  · intro n hn hmem
    unfold appendNamed
    rw [hn]
    show (if (nodes.any fun t => nodeBEq t n) = true then nodes
      else nodes ++ [n]) = nodes
    rw [hmem]
    rfl
  · intro hn
    unfold appendNamed
    rw [hn]

def rigChild : Node :=
  Node.mk { baseData with name := "The Camera Rig" } []

def model3p : Node :=
  Node.mk { baseData with name := "SceneRoot" } [rigChild]

/-- C3 witness: on a concrete model whose only hint is a direct child
named "The Camera Rig", the lookup selects that child by the
lower-cased substring fallback and appends it to an empty collection;
a collection already holding it is left unchanged. -/
theorem C3_witness :
    namedLookup model3p = some rigChild ∧
    appendNamed [] model3p = [] ++ [rigChild] ∧
    appendNamed [rigChild] model3p = [rigChild] := by
  refine ⟨(C3_thm model3p []).1.trans (by decide), ?_, ?_⟩
  · exact (C3_thm model3p []).2.1 rigChild
      ((C3_thm model3p []).1.trans (by decide)) (by decide)
  · exact (C3_thm model3p [rigChild]).2.2.1 rigChild
      ((C3_thm model3p [rigChild]).1.trans (by decide)) (by decide)

end ModelLoader
